import Mathlib

/-!
Shallow embedding of the build-orchestration scripts `build.py` and `run.py`
of the megobasterd repository.

External processes are opaque: each external invocation's outcome is drawn
from an oracle `Nat → ExitOutcome` indexed by the order in which the
dispatcher attempts invocations.  Dispatcher functions return their boolean
result together with the trace of `Invocation`s actually attempted, so that
claims about "how many invocations were attempted" are statable.
The filesystem touched by `clean` is modelled as a map from path strings to
a path state (directory / file / absent).
-/

namespace Megobasterd

/-- Outcome of attempting to start and wait for one external process:
either the executable ran and exited with the given code, or the
executable could not be located (`FileNotFoundError`). -/
inductive ExitOutcome
  | exited (code : Int)
  | notFound
deriving DecidableEq, Repr

/-- A diagnostic printed by `run_command` via `print_error`:
`CalledProcessError` yields "Command failed with exit code N",
`FileNotFoundError` yields "Command not found: cmd[0]". -/
inductive Diag
  | cmdFailed (code : Int)
  | cmdNotFound (exe : String)
deriving DecidableEq, Repr

/-- One external invocation as constructed by the dispatcher:
the argument vector, the optional working directory, and the `check`
flag passed to `subprocess.run` (when false, a non-zero exit does not
raise `CalledProcessError`). -/
structure Invocation where
  cmd : List String
  cwd : Option String
  check : Bool
deriving DecidableEq, Repr

/-- What `run_command` returns and prints, given the process outcome. -/
structure RunResult where
  success : Bool
  diags : List Diag
deriving DecidableEq, Repr

/-- `run_command(cmd, cwd, check)` from `build.py`: runs the process and
returns `returncode == 0`; a `CalledProcessError` (raised only when
`check` is true and the exit code is non-zero) is caught and reported,
returning false; a `FileNotFoundError` (the executable is missing,
raised regardless of `check`) is caught and reported, returning false.
When `check` is false a non-zero exit raises nothing and the plain
return-code comparison yields false with no diagnostic. -/
def run_command (cmd : List String) (cwd : Option String) (check : Bool)
    (o : ExitOutcome) : RunResult :=
  match o with
  | .exited code =>
      if code = 0 then ⟨true, []⟩
      else if check then ⟨false, [.cmdFailed code]⟩
      else ⟨false, []⟩
  | .notFound => ⟨false, [.cmdNotFound (cmd.headD "")]⟩

/-- Argument vector of the `go test` invocation with coverage. -/
def go_test_cover_cmd : List String :=
  ["go", "test", "-v", "-coverprofile=coverage.out", "./internal/...", "./pkg/..."]

/-- Argument vector of the coverage-report generation invocation. -/
def go_cover_report_cmd : List String :=
  ["go", "tool", "cover", "-html=coverage.out", "-o", "coverage.html"]

/-- Argument vector of the plain `go test` invocation. -/
def go_test_cmd : List String :=
  ["go", "test", "-v", "./internal/...", "./pkg/..."]

/-- `test(coverage)` from `build.py`.  With coverage: run the coverage
test invocation; on failure return false at once; on success run the
report-generation invocation and return its success.  Without coverage:
run the plain test invocation and return its success. -/
def test (coverage : Bool) (oracle : Nat → ExitOutcome) :
    Bool × List Invocation :=
  if coverage then
    let inv1 : Invocation := ⟨go_test_cover_cmd, none, true⟩
    if (run_command inv1.cmd inv1.cwd inv1.check (oracle 0)).success then
      let inv2 : Invocation := ⟨go_cover_report_cmd, none, true⟩
      ((run_command inv2.cmd inv2.cwd inv2.check (oracle 1)).success, [inv1, inv2])
    else
      (false, [inv1])
  else
    let inv : Invocation := ⟨go_test_cmd, none, true⟩
    ((run_command inv.cmd inv.cwd inv.check (oracle 0)).success, [inv])

/-- Number of report-generation invocations in a trace. -/
def reportGenCount (t : List Invocation) : Nat :=
  (t.filter (fun i => i.cmd == go_cover_report_cmd)).length

/-- `build(clean, upx)`'s argument vector: `["wails", "build"]`, then
`-clean` appended when the clean option is set, then `-upx` appended
when the upx option is set. -/
def build_cmd (clean upx : Bool) : List String :=
  (["wails", "build"] ++ (if clean then ["-clean"] else []))
    ++ (if upx then ["-upx"] else [])

/-- `build(clean, upx)` from `build.py`: a single invocation of the
constructed bundler command. -/
def build (clean upx : Bool) (oracle : Nat → ExitOutcome) :
    Bool × List Invocation :=
  let inv : Invocation := ⟨build_cmd clean upx, none, true⟩
  ((run_command inv.cmd inv.cwd inv.check (oracle 0)).success, [inv])

/-- Argument vector of the linter invocation. -/
def golangci_lint_cmd : List String := ["golangci-lint", "run", "./..."]

/-- `lint()` from `build.py`: a single invocation of the linter with
`check=False`; the dispatcher returns that invocation's success flag. -/
def lint (oracle : Nat → ExitOutcome) : Bool × List Invocation :=
  let inv : Invocation := ⟨golangci_lint_cmd, none, false⟩
  ((run_command inv.cmd inv.cwd inv.check (oracle 0)).success, [inv])

/-- State of one filesystem path. -/
inductive PathState
  | dir
  | file
  | absent
deriving DecidableEq, Repr

/-- The filesystem as seen by `clean`: each path string has a state.
The five paths in `paths_to_remove` are pairwise distinct and none is
nested inside another, so a flat map is faithful. -/
def FS : Type := String → PathState

/-- The fixed ordered cleanup list from `clean()` in `build.py`. -/
def paths_to_remove : List String :=
  ["build/", "frontend/dist/", "frontend/node_modules/", "coverage.out", "coverage.html"]

/-- One report line of `clean`: a directory removal (`shutil.rmtree`),
a file removal (`unlink`), or a "Skipping (not found)" line. -/
inductive CleanEvent
  | removedDir (p : String)
  | removedFile (p : String)
  | skipped (p : String)
deriving DecidableEq, Repr

/-- Whether a clean event is a "Removed" report. -/
def CleanEvent.isRemoved : CleanEvent → Bool
  | .removedDir _ => true
  | .removedFile _ => true
  | .skipped _ => false

/-- Whether a clean event is a "Skipping (not found)" report. -/
def CleanEvent.isSkipped : CleanEvent → Bool
  | .removedDir _ => false
  | .removedFile _ => false
  | .skipped _ => true

/-- Removing one path from the filesystem. -/
def removePath (fs : FS) (p : String) : FS :=
  fun q => if q = p then .absent else fs q

/-- The body of `clean`'s loop for one path: if the path exists and is a
directory, remove it recursively; if it exists and is a file, unlink it;
otherwise report skipping and leave the filesystem unchanged. -/
def cleanStep (fs : FS) (p : String) : CleanEvent × FS :=
  match fs p with
  | .dir => (.removedDir p, removePath fs p)
  | .file => (.removedFile p, removePath fs p)
  | .absent => (.skipped p, fs)

/-- `clean`'s loop over a path list, threading the filesystem and
collecting the report lines in order. -/
def cleanList (fs : FS) : List String → List CleanEvent × FS
  | [] => ([], fs)
  | p :: ps =>
      let s := cleanStep fs p
      let r := cleanList s.2 ps
      (s.1 :: r.1, r.2)

/-- `clean()` from `build.py`: iterate `paths_to_remove` in order, then
unconditionally return `True`. -/
def clean (fs : FS) : Bool × List CleanEvent × FS :=
  let r := cleanList fs paths_to_remove
  (true, r.1, r.2)

/-- Possible results of a Python function in this embedding: a normal
return value, or an uncaught exception. -/
inductive PyValue
  | ok (b : Bool)
  | exn (e : String)
deriving DecidableEq, Repr

/-- Argument vector of the module-download invocation. -/
def go_mod_download_cmd : List String := ["go", "mod", "download"]

/-- Argument vector of the module-tidy invocation. -/
def go_mod_tidy_cmd : List String := ["go", "mod", "tidy"]

/-- Argument vector of the frontend-install invocation. -/
def npm_install_cmd : List String := ["npm", "install"]

/-- `deps()` from `build.py`: run module download, aborting on failure;
run module tidy, aborting on failure; then, if the `frontend` directory
exists, run `npm install` in it and return its success.  If the
`frontend` directory does not exist the source calls `print_warning`,
a name defined nowhere in `build.py`, so a `NameError` escapes instead
of the `return True` on the next line. -/
def deps (frontendExists : Bool) (oracle : Nat → ExitOutcome) :
    PyValue × List Invocation :=
  let inv1 : Invocation := ⟨go_mod_download_cmd, none, true⟩
  if (run_command inv1.cmd inv1.cwd inv1.check (oracle 0)).success then
    let inv2 : Invocation := ⟨go_mod_tidy_cmd, none, true⟩
    if (run_command inv2.cmd inv2.cwd inv2.check (oracle 1)).success then
      if frontendExists then
        let inv3 : Invocation := ⟨npm_install_cmd, some "frontend", true⟩
        if (run_command inv3.cmd inv3.cwd inv3.check (oracle 2)).success then
          (.ok true, [inv1, inv2, inv3])
        else
          (.ok false, [inv1, inv2, inv3])
      else
        (.exn "NameError: name print_warning is not defined", [inv1, inv2])
    else
      (.ok false, [inv1, inv2])
  else
    (.ok false, [inv1])

/-- Number of module-tidy invocations in a trace. -/
def tidyCount (t : List Invocation) : Nat :=
  (t.filter (fun i => i.cmd == go_mod_tidy_cmd)).length

/-- Number of frontend-install invocations in a trace. -/
def npmInstallCount (t : List Invocation) : Nat :=
  (t.filter (fun i => i.cmd == npm_install_cmd)).length

/-- `run.py`: with no user arguments it runs `build.py --help` and calls
`sys.exit(0)`; otherwise it forwards the arguments to `build.py` via
`subprocess.run`, never inspects the returned `CompletedProcess`, and
falls off the end of the script, exiting 0.  `childExit` is the exit
code of the child `build.py` process; the result is the wrapper's own
exit code paired with the argument vectors of the subprocesses it
spawned. -/
def run_py (args : List String) (childExit : Int) : Int × List (List String) :=
  if args.isEmpty then
    (0, [["python", "build.py", "--help"]])
  else
    (0, [["python", "build.py"] ++ args])

/-! ## Helper lemmas -/

/-- `run_command` succeeds exactly when the process was found and exited 0;
the `check` flag, the command and the working directory are irrelevant to
the returned success flag. -/
theorem run_command_success_iff (cmd : List String) (cwd : Option String)
    (check : Bool) (o : ExitOutcome) :
    (run_command cmd cwd check o).success = true ↔ o = .exited 0 := by
  cases o with
  | exited code =>
      by_cases hc : code = 0 <;> by_cases hk : check <;>
        simp [run_command, hc, hk]
  | notFound => simp [run_command]

/-- The success flag of `run_command` is independent of `cmd`, `cwd`, `check`. -/
theorem run_command_success_congr (c1 c2 : List String) (w1 w2 : Option String)
    (k1 k2 : Bool) (o : ExitOutcome) :
    (run_command c1 w1 k1 o).success = (run_command c2 w2 k2 o).success := by
  cases o with
  | exited code => by_cases hc : code = 0 <;> cases k1 <;> cases k2 <;> simp [run_command, hc]
  | notFound => simp [run_command]

/-! ## Claim theorems -/

/-- C3 counterexample: an invocation run with `check=False` (the linter's
configuration) that exits non-zero returns failure but produces no
diagnostic at all, refuting "each of the two failure cases produces its
own distinct diagnostic" as a statement about every invocation run by
`run_command`. -/
theorem C3_check_false_silent_failure :
    (run_command golangci_lint_cmd none false (.exited 1)).success = false
      ∧ (run_command golangci_lint_cmd none false (.exited 1)).diags = [] := by
  constructor <;> rfl

/-- C3 (amended): `run_command` returns success iff the executable was
located and exited 0, and never propagates an exception (it is a total
function of the outcome).  When `check` is true (the default), the
exited-non-zero case and the not-found case each produce their own
distinct diagnostic; when `check` is false the not-found case still
produces its diagnostic but the exited-non-zero case produces none. -/
theorem C3_run_command_amended (cmd : List String) (cwd : Option String)
    (check : Bool) (o : ExitOutcome) (code : Int) :
    ((run_command cmd cwd check o).success = true ↔ o = .exited 0)
    ∧ (code ≠ 0 →
        (run_command cmd cwd true (.exited code)).diags = [.cmdFailed code])
    ∧ (code ≠ 0 →
        (run_command cmd cwd false (.exited code)).diags = [])
    ∧ (run_command cmd cwd check .notFound).diags = [.cmdNotFound (cmd.headD "")]
    ∧ Diag.cmdFailed code ≠ Diag.cmdNotFound (cmd.headD "") := by
  refine ⟨run_command_success_iff cmd cwd check o, ?_, ?_, ?_, ?_⟩
  · intro h; simp [run_command, h]
  · intro h; simp [run_command, h]
  · cases check <;> simp [run_command]
  · intro h; cases h

/-- C3 witness: the amended theorem applied at a concrete invocation. -/
theorem C3_run_command_amended_witness :
    (run_command ["go", "mod", "download"] none true (.exited 2)).diags
      = [.cmdFailed 2] :=
  (C3_run_command_amended ["go", "mod", "download"] none true (.exited 2) 2).2.1
    (by decide)

/-- C7: the `build` operation makes one invocation whose argument list is
`build_cmd clean upx`; with both options set that list is the base build
arguments followed by the clean marker and then the compression marker,
in that order, and each marker is present iff its option is set. -/
theorem C7_build_flags (c u : Bool) (oracle : Nat → ExitOutcome) :
    (build c u oracle).2 = [⟨build_cmd c u, none, true⟩]
    ∧ build_cmd true true = ["wails", "build"] ++ ["-clean"] ++ ["-upx"]
    ∧ ("-clean" ∈ build_cmd c u ↔ c = true)
    ∧ ("-upx" ∈ build_cmd c u ↔ u = true) := by
  refine ⟨rfl, rfl, ?_, ?_⟩ <;> cases c <;> cases u <;> decide

/-- C8: `lint` makes exactly one invocation, with the tolerate-non-zero
flag set (`check=False`); it succeeds iff the linter exited 0 (so it
fails both when the linter exited non-zero and when the binary was not
found); and on a non-zero exit the runner raises nothing and prints no
diagnostic of its own. -/
theorem C8_lint_tolerant_single_call (oracle : Nat → ExitOutcome) :
    (lint oracle).2 = [⟨golangci_lint_cmd, none, false⟩]
    ∧ ((lint oracle).1 = true ↔ oracle 0 = .exited 0)
    ∧ (∀ code : Int, code ≠ 0 →
        (run_command golangci_lint_cmd none false (.exited code)).diags = [])
    ∧ (lint (fun _ => .notFound)).1 = false := by
  refine ⟨rfl, ?_, ?_, rfl⟩
  · simpa [lint] using run_command_success_iff golangci_lint_cmd none false (oracle 0)
  · intro code h; simp [run_command, h]

/-- C8 witness: the theorem applied at a concrete oracle, with the
non-zero-exit clause discharged at exit code 1. -/
theorem C8_lint_tolerant_single_call_witness :
    (run_command golangci_lint_cmd none false (.exited 1)).diags = [] :=
  (C8_lint_tolerant_single_call (fun _ => .exited 1)).2.2.1 1 (by decide)

/-- C10: `run.py` exits 0 for every argument list and every exit code of
the forwarded `build.py` child: with no arguments it spawns
`build.py --help` and exits 0, and with arguments it forwards them to
`build.py`, ignores the child's exit code, and still exits 0. -/
theorem C10_run_py_always_exit_zero (args : List String) (childExit : Int) :
    (run_py args childExit).1 = 0
    ∧ run_py [] childExit = (0, [["python", "build.py", "--help"]])
    ∧ (args ≠ [] → run_py args childExit = (0, [["python", "build.py"] ++ args])) := by
  refine ⟨?_, rfl, ?_⟩
  · cases args <;> rfl
  · intro h
    cases args with
    | nil => exact absurd rfl h
    | cons a as => rfl

/-- C10 witness: the theorem applied to a failing `test` subcommand
forwarded through the wrapper: the child exits 1, the wrapper exits 0. -/
theorem C10_run_py_always_exit_zero_witness :
    run_py ["test"] 1 = (0, [["python", "build.py", "test"]]) :=
  (C10_run_py_always_exit_zero ["test"] 1).2.2 (by decide)

/-- C1: without the coverage option, `test` never attempts report
generation and returns the single test invocation's success; with
coverage and a failing test invocation, no report generation is
attempted and the result is failure; with coverage and a succeeding
test invocation, exactly one report generation is attempted and the
result is the conjunction of both invocations' successes. -/
theorem C1_test_coverage_report (oracle : Nat → ExitOutcome) :
    (reportGenCount (test false oracle).2 = 0
      ∧ (test false oracle).1 = (run_command go_test_cmd none true (oracle 0)).success)
    ∧ ((run_command go_test_cover_cmd none true (oracle 0)).success = false →
        reportGenCount (test true oracle).2 = 0 ∧ (test true oracle).1 = false)
    ∧ ((run_command go_test_cover_cmd none true (oracle 0)).success = true →
        reportGenCount (test true oracle).2 = 1
          ∧ (test true oracle).1
              = ((run_command go_test_cover_cmd none true (oracle 0)).success
                  && (run_command go_cover_report_cmd none true (oracle 1)).success)) := by
  refine ⟨⟨?_, ?_⟩, ?_, ?_⟩
  · simp [test, reportGenCount]
    decide
  · simp [test]
  · intro h
    simp [test, h, reportGenCount]
    decide
  · intro h
    simp [test, h]
    decide

/-- C1 witness: with coverage, a test invocation that exits 0 and a
report invocation that exits 1 give exactly one report-generation
attempt and overall failure. -/
theorem C1_test_coverage_report_witness :
    reportGenCount (test true (fun n => if n = 0 then .exited 0 else .exited 1)).2 = 1
      ∧ (test true (fun n => if n = 0 then .exited 0 else .exited 1)).1
          = ((run_command go_test_cover_cmd none true (.exited 0)).success
              && (run_command go_cover_report_cmd none true (.exited 1)).success) :=
  (C1_test_coverage_report (fun n => if n = 0 then .exited 0 else .exited 1)).2.2
    (by decide)

/-- C2: evaluating `deps` with the frontend directory absent and every
external invocation exiting 0: the source reaches the undefined name
`print_warning`, so a `NameError` escapes instead of the intended
`return True`, after exactly the two phase-1 invocations. -/
theorem C2_deps_frontend_absent_namerror :
    deps false (fun _ => .exited 0)
      = (.exn "NameError: name print_warning is not defined",
         [⟨go_mod_download_cmd, none, true⟩, ⟨go_mod_tidy_cmd, none, true⟩]) := by
  decide

/-- C4: when the module-download invocation fails, `deps` returns
failure after exactly that one invocation: the trace is the download
invocation alone, so zero tidy and zero frontend-install invocations. -/
theorem C4_deps_download_failure (frontendExists : Bool)
    (oracle : Nat → ExitOutcome)
    (h : (run_command go_mod_download_cmd none true (oracle 0)).success = false) :
    deps frontendExists oracle = (.ok false, [⟨go_mod_download_cmd, none, true⟩])
    ∧ tidyCount (deps frontendExists oracle).2 = 0
    ∧ npmInstallCount (deps frontendExists oracle).2 = 0
    ∧ (deps frontendExists oracle).2.length = 1 := by
  have e : deps frontendExists oracle
      = (.ok false, [⟨go_mod_download_cmd, none, true⟩]) := by
    simp [deps, h]
  refine ⟨e, ?_, ?_, ?_⟩ <;> rw [e] <;> decide

/-- C4 witness: the theorem applied with the download executable missing. -/
theorem C4_deps_download_failure_witness :
    deps true (fun _ => .notFound)
      = (.ok false, [⟨go_mod_download_cmd, none, true⟩]) :=
  (C4_deps_download_failure true (fun _ => .notFound) (by decide)).1

/-- The report line `clean` emits for a path in the given state. -/
def eventFor (s : PathState) (p : String) : CleanEvent :=
  match s with
  | .dir => .removedDir p
  | .file => .removedFile p
  | .absent => .skipped p

/-- `cleanStep` reports exactly the event determined by the path's state. -/
theorem cleanStep_event (fs : FS) (p : String) :
    (cleanStep fs p).1 = eventFor (fs p) p := by
  unfold cleanStep eventFor
  cases fs p <;> rfl

/-- `cleanStep` leaves every other path's state unchanged. -/
theorem cleanStep_apply_ne (fs : FS) (p q : String) (h : q ≠ p) :
    (cleanStep fs p).2 q = fs q := by
  unfold cleanStep
  cases fs p <;> simp [removePath, h]

/-- After `cleanStep`, the processed path is absent. -/
theorem cleanStep_apply_self (fs : FS) (p : String) :
    (cleanStep fs p).2 p = .absent := by
  unfold cleanStep
  cases hf : fs p <;> simp [removePath, hf]

/-- Mapping `eventFor` over paths is unchanged when the two filesystems
agree on those paths. -/
theorem map_eventFor_congr (f g : FS) (ps : List String)
    (h : ∀ q ∈ ps, f q = g q) :
    ps.map (fun q => eventFor (f q) q) = ps.map (fun q => eventFor (g q) q) := by
  induction ps with
  | nil => rfl
  | cons p ps ih =>
      simp only [List.map_cons]
      refine congrArg₂ _ ?_ (ih fun q hq => h q (List.mem_cons_of_mem _ hq))
      rw [h p (List.mem_cons_self _ _)]

/-- Over a duplicate-free path list, `clean`'s loop reports, in list
order, exactly the event determined by each path's initial state. -/
theorem cleanList_events (fs : FS) (ps : List String) (h : ps.Nodup) :
    (cleanList fs ps).1 = ps.map (fun p => eventFor (fs p) p) := by
  induction ps generalizing fs with
  | nil => rfl
  | cons p ps ih =>
      obtain ⟨hp, hps⟩ := List.nodup_cons.mp h
      simp only [cleanList, List.map_cons]
      refine congrArg₂ _ (cleanStep_event fs p) ?_
      rw [ih _ hps]
      exact map_eventFor_congr _ _ ps fun q hq =>
        cleanStep_apply_ne fs p q (fun e => hp (e ▸ hq))

/-- `clean`'s loop leaves a path absent iff it was processed, and
untouched otherwise. -/
theorem cleanList_apply (fs : FS) (ps : List String) (q : String) :
    (cleanList fs ps).2 q = if q ∈ ps then .absent else fs q := by
  induction ps generalizing fs with
  | nil => simp [cleanList]
  | cons p ps ih =>
      simp only [cleanList]
      rw [ih]
      by_cases hqps : q ∈ ps
      · simp [hqps, List.mem_cons]
      · by_cases hqp : q = p
        · subst hqp
          simp [hqps, cleanStep_apply_self]
        · simp [hqps, hqp, List.mem_cons, cleanStep_apply_ne fs p q hqp]

/-- The five cleanup paths are pairwise distinct. -/
theorem paths_to_remove_nodup : paths_to_remove.Nodup := by decide

/-- C5: in this model no removal raises a filesystem error, and for
every initial filesystem state `clean` returns overall success; every
listed path that is initially absent is reported as skipped (an event,
not an error). -/
theorem C5_clean_always_succeeds (fs : FS) :
    (clean fs).1 = true
    ∧ ∀ p, p ∈ paths_to_remove → fs p = .absent →
        CleanEvent.skipped p ∈ (clean fs).2.1 := by
  refine ⟨rfl, fun p hp habs => ?_⟩
  have he : (clean fs).2.1 = paths_to_remove.map (fun q => eventFor (fs q) q) :=
    cleanList_events fs paths_to_remove paths_to_remove_nodup
  rw [he]
  have : CleanEvent.skipped p = eventFor (fs p) p := by rw [habs]; rfl
  rw [this]
  exact List.mem_map_of_mem _ hp

/-- C5 witness: the theorem applied to the all-absent filesystem. -/
theorem C5_clean_always_succeeds_witness :
    (clean (fun _ => .absent)).1 = true
    ∧ CleanEvent.skipped "build/" ∈ (clean (fun _ => PathState.absent)).2.1 :=
  ⟨(C5_clean_always_succeeds (fun _ => .absent)).1,
   (C5_clean_always_succeeds (fun _ => .absent)).2 "build/" (by decide) rfl⟩

/-- C6: `clean` is idempotent: a second run starts from a state with all
five listed paths absent, produces the same final filesystem state as
the first run, and reports the same overall outcome (`true`). -/
theorem C6_clean_idempotent (fs : FS) :
    (clean ((clean fs).2.2)).2.2 = (clean fs).2.2
    ∧ (clean ((clean fs).2.2)).1 = (clean fs).1
    ∧ ∀ p, p ∈ paths_to_remove → (clean fs).2.2 p = .absent := by
  refine ⟨?_, rfl, fun p hp => ?_⟩
  · funext q
    show (cleanList ((cleanList fs paths_to_remove).2) paths_to_remove).2 q
        = (cleanList fs paths_to_remove).2 q
    rw [cleanList_apply, cleanList_apply]
    by_cases hq : q ∈ paths_to_remove <;> simp [hq]
  · show (cleanList fs paths_to_remove).2 p = .absent
    rw [cleanList_apply]
    simp [hp]

/-- C6 witness: the theorem applied to the filesystem in which every
path is a directory. -/
theorem C6_clean_idempotent_witness :
    (clean ((clean (fun _ => PathState.dir)).2.2)).2.2
        = (clean (fun _ => PathState.dir)).2.2
    ∧ (clean (fun _ => PathState.dir)).2.2 "coverage.out" = .absent :=
  ⟨(C6_clean_idempotent (fun _ => .dir)).1,
   (C6_clean_idempotent (fun _ => .dir)).2.2 "coverage.out" (by decide)⟩

/-- The initial filesystem of the C9 scenario: only the coverage-profile
file and the coverage-report file exist, both as regular files. -/
def fs_only_coverage : FS :=
  fun p =>
    if p = "coverage.out" then .file
    else if p = "coverage.html" then .file
    else .absent

/-- C9: starting from a state where only the two coverage files exist,
`clean` reports, in the fixed order of the cleanup list, a skip for each
of the three directories and a file removal for each coverage file:
two removed reports, three skipping reports, and overall success. -/
theorem C9_clean_only_coverage_files :
    (clean fs_only_coverage).2.1
        = [.skipped "build/", .skipped "frontend/dist/",
           .skipped "frontend/node_modules/",
           .removedFile "coverage.out", .removedFile "coverage.html"]
    ∧ ((clean fs_only_coverage).2.1.filter CleanEvent.isRemoved).length = 2
    ∧ ((clean fs_only_coverage).2.1.filter CleanEvent.isSkipped).length = 3
    ∧ (clean fs_only_coverage).1 = true := by
  refine ⟨?_, ?_, ?_, rfl⟩ <;> decide

end Megobasterd
